import Mathlib

/-!
Shallow embedding of the birth-chart computation core of `src/Birth_pred.py`
(class `VedicAstrology` and the module-level helpers), with the properties
of the specification proved against it.

Modelling conventions:
* Python floats are embedded as exact rationals (`ℚ`); decimal literals in
  the source become the corresponding decimal rationals.
* Python's `%` on reals with a positive modulus is `pymod a b = a - b*⌊a/b⌋`.
* Python's `//` on reals is `⌊a / b⌋` (and `int` of an already integral
  float is the identity), so `int(a // b)` is embedded as `⌊a / b⌋ : ℤ`.
* Python list indexing `xs[i]` (which admits negative indices and raises
  `IndexError` out of range) is `pyListGet : List α → ℤ → Option α`;
  `none` models the raised exception.
* A Python function that can terminate by raising (e.g. the dasha loop
  leaving `remaining_years` unbound) returns `Option`; `none` models the
  raised error.
-/

/-- Python's `a % b` for real operands, positive modulus: `a - b * ⌊a / b⌋`. -/
def pymod (a b : ℚ) : ℚ := a - b * ⌊a / b⌋

/-- Python list indexing `l[i]`: direct for `0 ≤ i < len`, wraps once for
`-len ≤ i < 0`, and raises `IndexError` (modelled `none`) otherwise. -/
def pyListGet {α : Type} (l : List α) (i : ℤ) : Option α :=
  if 0 ≤ i then l.get? i.toNat
  else if (l.length : ℤ) + i < 0 then none
  else l.get? ((l.length : ℤ) + i).toNat

theorem pymod_nonneg (a : ℚ) {b : ℚ} (hb : 0 < b) : 0 ≤ pymod a b := by
  have h1 : (⌊a / b⌋ : ℚ) ≤ a / b := Int.floor_le _
  have h2 : b * (⌊a / b⌋ : ℚ) ≤ b * (a / b) :=
    mul_le_mul_of_nonneg_left h1 hb.le
  rw [mul_div_cancel₀ _ hb.ne'] at h2
  simpa [pymod] using h2

theorem pymod_lt (a : ℚ) {b : ℚ} (hb : 0 < b) : pymod a b < b := by
  have h1 : a / b < (⌊a / b⌋ : ℚ) + 1 := Int.lt_floor_add_one _
  have h2 : b * (a / b) < b * ((⌊a / b⌋ : ℚ) + 1) :=
    (mul_lt_mul_left hb).2 h1
  rw [mul_div_cancel₀ _ hb.ne'] at h2
  have : a < b * (⌊a / b⌋ : ℚ) + b := by nlinarith
  simpa [pymod] using by linarith

theorem pymod_add_floor (a : ℚ) (b : ℚ) :
    a = b * ⌊a / b⌋ + pymod a b := by
  simp [pymod]

/-- `VedicAstrology.SIGNS`. -/
def SIGNS : List String :=
  ["Aries", "Taurus", "Gemini", "Cancer", "Leo", "Virgo",
   "Libra", "Scorpio", "Sagittarius", "Capricorn", "Aquarius", "Pisces"]

/-- `VedicAstrology.NAKSHATRAS`. -/
def NAKSHATRAS : List String :=
  ["Ashwini", "Bharani", "Krittika", "Rohini", "Mrigashirsha", "Ardra",
   "Punarvasu", "Pushya", "Ashlesha", "Magha", "Purva Phalguni", "Uttara Phalguni",
   "Hasta", "Chitra", "Swati", "Vishakha", "Anuradha", "Jyeshtha",
   "Mula", "Purva Ashadha", "Uttara Ashadha", "Shravana", "Dhanishta", "Shatabhisha",
   "Purva Bhadrapada", "Uttara Bhadrapada", "Revati"]

/-- `VedicAstrology.DASHA_PERIODS` (dict, insertion order as written). -/
def DASHA_PERIODS : List (String × ℕ) :=
  [("Ketu", 7), ("Venus", 20), ("Sun", 6), ("Moon", 10), ("Mars", 7),
   ("Rahu", 18), ("Jupiter", 16), ("Saturn", 19), ("Mercury", 17)]

/-- Result record of `get_sign_and_degree` (the returned dict). -/
structure SignDegree where
  sign : String
  degree : ℚ
  sign_num : ℤ

/-- `VedicAstrology.get_sign_and_degree`: normalize the longitude with `% 360`,
then `sign_num = int(longitude // 30)`, `degree = longitude % 30`,
`sign = SIGNS[sign_num]`. -/
def get_sign_and_degree (longitude : ℚ) : SignDegree :=
  let l := pymod longitude 360
  let sign_num := ⌊l / 30⌋
  let degree := pymod l 30
  { sign := (pyListGet SIGNS sign_num).getD ""
    degree := degree
    sign_num := sign_num }

/-- **C1.** `get_sign_and_degree` is total over the rationals: the sign index
lies in `[0, 11]`, the degree in `[0, 30)`, and `sign_num * 30 + degree` is
congruent to the input longitude modulo 360 (the normalization into `[0,360)`
is always non-negative, negative inputs included). -/
theorem get_sign_and_degree_spec (x : ℚ) :
    0 ≤ (get_sign_and_degree x).sign_num ∧
    (get_sign_and_degree x).sign_num ≤ 11 ∧
    0 ≤ (get_sign_and_degree x).degree ∧
    (get_sign_and_degree x).degree < 30 ∧
    ∃ k : ℤ, ((get_sign_and_degree x).sign_num : ℚ) * 30 +
      (get_sign_and_degree x).degree = x + 360 * k := by
  have h360 : (0 : ℚ) < 360 := by norm_num
  have h30 : (0 : ℚ) < 30 := by norm_num
  set l := pymod x 360 with hl
  have hl0 : 0 ≤ l := pymod_nonneg x h360
  have hl1 : l < 360 := pymod_lt x h360
  have hsd : (get_sign_and_degree x).sign_num = ⌊l / 30⌋ := rfl
  have hdeg : (get_sign_and_degree x).degree = pymod l 30 := rfl
  refine ⟨?_, ?_, ?_, ?_, ?_⟩
  · rw [hsd]
    exact Int.floor_nonneg.2 (by positivity)
  · rw [hsd]
    have : l / 30 < 12 := by linarith [ (div_lt_iff₀ h30).2 (by linarith : l < 12 * 30) ]
    have h := Int.floor_lt.2 (by exact_mod_cast this : l / 30 < ((12 : ℤ) : ℚ))
    omega
  · rw [hdeg]; exact pymod_nonneg l h30
  · rw [hdeg]; exact pymod_lt l h30
  · refine ⟨-⌊x / 360⌋, ?_⟩
    rw [hsd, hdeg]
    have hdecomp : l = 30 * ⌊l / 30⌋ + pymod l 30 := pymod_add_floor l 30
    have hxdecomp : x = 360 * ⌊x / 360⌋ + l := pymod_add_floor x 360
    push_cast
    linarith

/-- `VedicAstrology.calculate_ayanamsa`: fractional year
`year + (month-1)/12 + (day-1)/365.25`, then
`23.85 + (year - 1900) * 0.013888889`. -/
def calculate_ayanamsa (year month day : ℕ) : ℚ :=
  let y : ℚ := (year : ℚ) + ((month : ℚ) - 1) / 12 + ((day : ℚ) - 1) / 365.25
  23.85 + (y - 1900) * 0.013888889

/-- `VedicAstrology.calculate_lunar_nodes`, as a function of the (possibly
negative) whole-day count `(date - datetime(1900,1,1)).days`:
`mean_node = 125.044522 - 0.0529539222 * days`, `rahu = mean_node % 360`,
`ketu = (rahu + 180) % 360`; the pair `(rahu, ketu)` is the returned dict. -/
def calculate_lunar_nodes (days_since_epoch : ℤ) : ℚ × ℚ :=
  let mean_node : ℚ := 125.044522 - 0.0529539222 * (days_since_epoch : ℚ)
  let rahu := pymod mean_node 360
  let ketu := pymod (rahu + 180) 360
  (rahu, ketu)

/-- `VedicAstrology.get_nakshatra`: `span = 360/27`,
`index = int(longitude // span)`, `pada = int((longitude % span) // (span/4)) + 1`,
name looked up by `NAKSHATRAS[index]` (no prior normalization of the input;
the lookup raises `IndexError`, i.e. `none`, when the index is out of range). -/
def get_nakshatra (longitude : ℚ) : Option (String × ℤ × ℤ) :=
  let nakshatra_span : ℚ := 360 / 27
  let nakshatra_index := ⌊longitude / nakshatra_span⌋
  let pada := ⌊(pymod longitude nakshatra_span) / (nakshatra_span / 4)⌋ + 1
  (pyListGet NAKSHATRAS nakshatra_index).map (fun nm => (nm, nakshatra_index, pada))

/-- The `city_coords` table inside `get_coordinates`. -/
def city_coords : List (String × (ℚ × ℚ)) :=
  [("mumbai", (19.0760, 72.8777)),
   ("delhi", (28.7041, 77.1025)),
   ("bangalore", (12.9716, 77.5946)),
   ("chennai", (13.0827, 80.2707)),
   ("kolkata", (22.5726, 88.3639)),
   ("hyderabad", (17.3850, 78.4867)),
   ("pune", (18.5204, 73.8567)),
   ("ahmedabad", (23.0225, 72.5714)),
   ("jaipur", (26.9124, 75.7873)),
   ("lucknow", (26.8467, 80.9462)),
   ("new york", (40.7128, -74.0060)),
   ("london", (51.5074, -0.1278)),
   ("tokyo", (35.6762, 139.6503)),
   ("sydney", (-33.8688, 151.2093)),
   ("toronto", (43.6532, -79.3832))]

/-- `city_name.lower()` (the table keys are ASCII, where Python's `lower`
agrees with ASCII lowercasing). -/
def pyLower (s : String) : String := ⟨s.data.map Char.toLower⟩

/-- `get_coordinates`: look the lowercased name up in `city_coords`,
defaulting to Delhi `(28.7041, 77.1025)`. -/
def get_coordinates (city_name : String) : ℚ × ℚ :=
  (city_coords.lookup (pyLower city_name)).getD (28.7041, 77.1025)

/-- **C3.** For every day offset from the 1900-01-01 epoch (negative offsets,
i.e. earlier dates, included), `calculate_lunar_nodes` returns Rahu and Ketu
with `ketu = (rahu + 180) mod 360` exactly and both normalized non-negative
into `[0, 360)`. -/
theorem calculate_lunar_nodes_spec (d : ℤ) :
    (calculate_lunar_nodes d).2 = pymod ((calculate_lunar_nodes d).1 + 180) 360 ∧
    0 ≤ (calculate_lunar_nodes d).1 ∧ (calculate_lunar_nodes d).1 < 360 ∧
    0 ≤ (calculate_lunar_nodes d).2 ∧ (calculate_lunar_nodes d).2 < 360 := by
  have h360 : (0 : ℚ) < 360 := by norm_num
  refine ⟨rfl, pymod_nonneg _ h360, pymod_lt _ h360,
    pymod_nonneg _ h360, pymod_lt _ h360⟩

/-- `dasha_sequence` in `calculate_current_dasha`. -/
def dasha_sequence : List String :=
  ["Ketu", "Venus", "Sun", "Moon", "Mars", "Rahu", "Jupiter", "Saturn", "Mercury"]

/-- `nakshatra_lords` in `calculate_current_dasha` (27 entries, as written). -/
def nakshatra_lords : List String :=
  ["Ketu", "Venus", "Sun", "Moon", "Mars", "Rahu", "Jupiter", "Saturn", "Mercury",
   "Ketu", "Venus", "Sun", "Moon", "Mars", "Rahu", "Jupiter", "Saturn", "Mercury",
   "Ketu", "Venus", "Sun", "Moon", "Mars", "Rahu", "Jupiter", "Saturn", "Mercury"]

/-- `self.DASHA_PERIODS[planet]` (the name is always present, so the default
is never taken). -/
def periodOf (planet : String) : ℕ := (DASHA_PERIODS.lookup planet).getD 0

/-- The period (as a rational, the way the loop arithmetic uses it) of the
planet at position `n` of the cycle, i.e. of `dasha_sequence[n % 9]`. -/
def dashaPeriodQ (n : ℕ) : ℚ := (periodOf (dasha_sequence.getD (n % 9) "") : ℚ)

/-- The `for i in range(9)` loop of `calculate_current_dasha`: fuel counts the
remaining iterations, `s` is `start_index + i`, `total_elapsed` the running
sum.  Returns the planet and `remaining_years`; `none` models falling out of
the loop with `remaining_years` unbound (Python raises `UnboundLocalError`
at the subsequent `return`). -/
def dashaLoop : ℕ → ℕ → ℚ → ℚ → Option (String × ℚ)
  | 0, _, _, _ => none
  | k + 1, s, total_elapsed, elapsed_years =>
    let planet := dasha_sequence.getD (s % 9) ""
    let period_years : ℚ := (periodOf planet : ℚ)
    if elapsed_years < total_elapsed + period_years then
      some (planet, total_elapsed + period_years - elapsed_years)
    else
      dashaLoop k (s + 1) (total_elapsed + period_years) elapsed_years

/-- The `for i, planet in enumerate(dasha_sequence)` search for
`start_index` (the starting planet is always one of the nine names). -/
def dashaStart (starting_dasha : String) : ℕ := dasha_sequence.indexOf starting_dasha

/-- `VedicAstrology.calculate_current_dasha`, as a function of the birth
nakshatra index and the elapsed years `(now - birth).days / 365.25`.
Returns `(mahadasha, remaining_years)`; `none` models the
`UnboundLocalError` raised when the loop finishes all nine iterations
without assigning `remaining_years`. -/
def calculate_current_dasha (birth_nakshatra_index : ℕ) (elapsed_years : ℚ) :
    Option (String × ℚ) :=
  match pyListGet nakshatra_lords (birth_nakshatra_index : ℤ) with
  | none => none
  | some starting_dasha => dashaLoop 9 (dashaStart starting_dasha) 0 elapsed_years

/-- Starting position in the nine-planet cycle for a birth nakshatra index. -/
def dashaStartOfNak (b : ℕ) : ℕ := dashaStart (nakshatra_lords.getD b "")

/-- Sum of the periods of `k` consecutive cycle positions starting at `s`. -/
def sumOfPeriods : ℕ → ℕ → ℚ
  | 0, _ => 0
  | k + 1, s => dashaPeriodQ s + sumOfPeriods k (s + 1)

theorem dashaLoop_succ (k s : ℕ) (tot e : ℚ) :
    dashaLoop (k + 1) s tot e =
      if e < tot + dashaPeriodQ s then
        some (dasha_sequence.getD (s % 9) "", tot + dashaPeriodQ s - e)
      else dashaLoop k (s + 1) (tot + dashaPeriodQ s) e := rfl

theorem dashaPeriodQ_pos (n : ℕ) : 0 < dashaPeriodQ n := by
  have h : n % 9 < 9 := Nat.mod_lt _ (by norm_num)
  have hall : ∀ m, m < 9 → 0 < periodOf (dasha_sequence.getD m "") := by decide
  have := hall (n % 9) h
  unfold dashaPeriodQ
  exact_mod_cast this

theorem sumOfPeriods_nonneg (k s : ℕ) : 0 ≤ sumOfPeriods k s := by
  induction k generalizing s with
  | zero => simp [sumOfPeriods]
  | succ k ih =>
    have h1 := (dashaPeriodQ_pos s).le
    have h2 := ih (s + 1)
    show 0 ≤ dashaPeriodQ s + sumOfPeriods k (s + 1)
    linarith

theorem sumOfPeriods_succ_right (k s : ℕ) :
    sumOfPeriods (k + 1) s = sumOfPeriods k s + dashaPeriodQ (s + k) := by
  induction k generalizing s with
  | zero => show dashaPeriodQ s + 0 = 0 + dashaPeriodQ (s + 0); simp
  | succ k ih =>
    show dashaPeriodQ s + sumOfPeriods (k + 1) (s + 1) = sumOfPeriods (k + 1) s + _
    rw [ih (s + 1)]
    show dashaPeriodQ s + (sumOfPeriods k (s + 1) + dashaPeriodQ (s + 1 + k)) = _
    have h1 : s + 1 + k = s + (k + 1) := by omega
    rw [h1]
    show _ = dashaPeriodQ s + sumOfPeriods k (s + 1) + dashaPeriodQ (s + (k + 1))
    ring

theorem dashaPeriodQ_add_nine (s : ℕ) : dashaPeriodQ (s + 9) = dashaPeriodQ s := by
  unfold dashaPeriodQ
  rw [Nat.add_mod_right]

theorem sumOfPeriods_nine (s : ℕ) : sumOfPeriods 9 s = 120 := by
  induction s with
  | zero =>
    have h : sumOfPeriods 9 0 =
        dashaPeriodQ 0 + (dashaPeriodQ 1 + (dashaPeriodQ 2 + (dashaPeriodQ 3 +
          (dashaPeriodQ 4 + (dashaPeriodQ 5 + (dashaPeriodQ 6 + (dashaPeriodQ 7 +
            (dashaPeriodQ 8 + 0)))))))) := rfl
    have e0 : dashaPeriodQ 0 = ((7 : ℕ) : ℚ) := rfl
    have e1 : dashaPeriodQ 1 = ((20 : ℕ) : ℚ) := rfl
    have e2 : dashaPeriodQ 2 = ((6 : ℕ) : ℚ) := rfl
    have e3 : dashaPeriodQ 3 = ((10 : ℕ) : ℚ) := rfl
    have e4 : dashaPeriodQ 4 = ((7 : ℕ) : ℚ) := rfl
    have e5 : dashaPeriodQ 5 = ((18 : ℕ) : ℚ) := rfl
    have e6 : dashaPeriodQ 6 = ((16 : ℕ) : ℚ) := rfl
    have e7 : dashaPeriodQ 7 = ((19 : ℕ) : ℚ) := rfl
    have e8 : dashaPeriodQ 8 = ((17 : ℕ) : ℚ) := rfl
    rw [h, e0, e1, e2, e3, e4, e5, e6, e7, e8]
    push_cast
    norm_num
  | succ s ih =>
    have h1 : sumOfPeriods 9 (s + 1) = sumOfPeriods 8 (s + 1) + dashaPeriodQ (s + 1 + 8) :=
      sumOfPeriods_succ_right 8 (s + 1)
    have h2 : sumOfPeriods 9 s = dashaPeriodQ s + sumOfPeriods 8 (s + 1) := rfl
    have h3 : s + 1 + 8 = s + 9 := by omega
    rw [h1, h3, dashaPeriodQ_add_nine]
    rw [h2] at ih
    linarith

theorem sumOfPeriods_le (s : ℕ) {a b : ℕ} (h : a ≤ b) :
    sumOfPeriods a s ≤ sumOfPeriods b s := by
  induction b with
  | zero =>
    have : a = 0 := Nat.le_zero.1 h
    simp [this]
  | succ b ih =>
    rcases Nat.lt_or_ge a (b + 1) with hlt | hge
    · have h1 := ih (Nat.lt_succ_iff.1 hlt)
      rw [sumOfPeriods_succ_right]
      have h2 := (dashaPeriodQ_pos (s + b)).le
      linarith
    · have : a = b + 1 := le_antisymm h hge
      simp [this]

theorem dashaLoop_finds :
    ∀ (k s : ℕ) (tot e : ℚ), tot ≤ e → e < tot + sumOfPeriods k s →
    ∃ j, j < k ∧ tot + sumOfPeriods j s ≤ e ∧ e < tot + sumOfPeriods (j + 1) s ∧
      dashaLoop k s tot e =
        some (dasha_sequence.getD ((s + j) % 9) "",
              tot + sumOfPeriods (j + 1) s - e) := by
  intro k
  induction k with
  | zero =>
    intro s tot e h1 h2
    exfalso
    simp only [sumOfPeriods] at h2
    linarith
  | succ k ih =>
    intro s tot e h1 h2
    by_cases hc : e < tot + dashaPeriodQ s
    · refine ⟨0, Nat.succ_pos k, ?_, ?_, ?_⟩
      · simpa [sumOfPeriods] using h1
      · show e < tot + sumOfPeriods 1 s
        have : sumOfPeriods 1 s = dashaPeriodQ s + 0 := rfl
        rw [this]
        linarith
      · rw [dashaLoop_succ, if_pos hc]
        have h0 : s + 0 = s := rfl
        have hs1 : sumOfPeriods (0 + 1) s = dashaPeriodQ s + 0 := rfl
        rw [h0, hs1]
        simp only [Option.some.injEq, Prod.mk.injEq]
        exact ⟨trivial, by ring⟩
    · push_neg at hc
      have hsplit : sumOfPeriods (k + 1) s = dashaPeriodQ s + sumOfPeriods k (s + 1) := rfl
      have h2' : e < (tot + dashaPeriodQ s) + sumOfPeriods k (s + 1) := by
        rw [hsplit] at h2
        linarith
      obtain ⟨j, hj, hle, hlt, heq⟩ := ih (s + 1) (tot + dashaPeriodQ s) e hc h2'
      refine ⟨j + 1, by omega, ?_, ?_, ?_⟩
      · have hs : sumOfPeriods (j + 1) s = dashaPeriodQ s + sumOfPeriods j (s + 1) := rfl
        rw [hs]
        linarith
      · have hs : sumOfPeriods (j + 1 + 1) s = dashaPeriodQ s + sumOfPeriods (j + 1) (s + 1) := rfl
        rw [hs]
        linarith
      · rw [dashaLoop_succ, if_neg (not_lt.2 hc), heq]
        have hidx : s + 1 + j = s + (j + 1) := by omega
        have hs : sumOfPeriods (j + 1 + 1) s = dashaPeriodQ s + sumOfPeriods (j + 1) (s + 1) := rfl
        rw [hidx, hs]
        simp only [Option.some.injEq, Prod.mk.injEq]
        exact ⟨trivial, by ring⟩

theorem dashaLoop_none :
    ∀ (k s : ℕ) (tot e : ℚ), tot + sumOfPeriods k s ≤ e → dashaLoop k s tot e = none := by
  intro k
  induction k with
  | zero => intro s tot e _; rfl
  | succ k ih =>
    intro s tot e h
    have hsplit : sumOfPeriods (k + 1) s = dashaPeriodQ s + sumOfPeriods k (s + 1) := rfl
    rw [hsplit] at h
    have hnn := sumOfPeriods_nonneg k (s + 1)
    rw [dashaLoop_succ, if_neg (by push_neg; linarith)]
    exact ih (s + 1) _ e (by linarith)

theorem dashaStartOfNak_lt (b : ℕ) (hb : b < 27) : dashaStartOfNak b < 9 := by
  revert hb
  revert b
  decide

theorem calculate_current_dasha_eq (b : ℕ) (hb : b < 27) (e : ℚ) :
    calculate_current_dasha b e = dashaLoop 9 (dashaStartOfNak b) 0 e := by
  have h1 : ∀ c : ℕ, c < 27 →
      pyListGet nakshatra_lords (c : ℤ) = some (nakshatra_lords.getD c "") := by decide
  unfold calculate_current_dasha
  rw [h1 b hb]
  rfl

theorem dashaLoop_spec_main (b : ℕ) (hb : b < 27) (e : ℚ) (h0 : 0 ≤ e) (h1 : e < 120) :
    ∃ j, j < 9 ∧
      sumOfPeriods j (dashaStartOfNak b) ≤ e ∧
      e < sumOfPeriods (j + 1) (dashaStartOfNak b) ∧
      calculate_current_dasha b e =
        some (dasha_sequence.getD ((dashaStartOfNak b + j) % 9) "",
              sumOfPeriods (j + 1) (dashaStartOfNak b) - e) ∧
      (∀ j2, j2 < 9 → sumOfPeriods j2 (dashaStartOfNak b) ≤ e →
        e < sumOfPeriods (j2 + 1) (dashaStartOfNak b) → j2 = j) ∧
      sumOfPeriods (j + 1) (dashaStartOfNak b) - e ≤ dashaPeriodQ (dashaStartOfNak b + j) := by
  set s := dashaStartOfNak b with hs
  have h120 : e < 0 + sumOfPeriods 9 s := by rw [sumOfPeriods_nine]; linarith
  obtain ⟨j, hj9, hle, hlt, heq⟩ := dashaLoop_finds 9 s 0 e h0 h120
  rw [zero_add] at hle hlt heq
  refine ⟨j, hj9, hle, hlt, ?_, ?_, ?_⟩
  · rw [calculate_current_dasha_eq b hb]
    exact heq
  · intro j2 h9 hle2 hlt2
    by_contra hne
    rcases Nat.lt_or_ge j2 j with hlt3 | hge
    · have h4 : j2 + 1 ≤ j := hlt3
      have h5 := sumOfPeriods_le s h4
      linarith
    · have hgt : j < j2 := lt_of_le_of_ne hge (Ne.symm hne)
      have h4 : j + 1 ≤ j2 := hgt
      have h5 := sumOfPeriods_le s h4
      linarith
  · have hsr := sumOfPeriods_succ_right j s
    linarith

/-- **C2.** For every elapsed time in `[0, 120)`, the dasha sequencer,
started at the mansion lord's position in the nine-planet cycle,
returns exactly one active planet: the unique cycle step `j < 9` whose
accumulated interval `[sumOfPeriods j start, sumOfPeriods (j+1) start)`
contains the elapsed years, with
`remaining = accumulated end - elapsed ∈ [0, periodOf planet]`. -/
theorem calculate_current_dasha_active (b : ℕ) (hb : b < 27) (e : ℚ)
    (h0 : 0 ≤ e) (h1 : e < 120) :
    ∃ planet remaining, calculate_current_dasha b e = some (planet, remaining) ∧
      (∃ j, j < 9 ∧
        planet = dasha_sequence.getD ((dashaStartOfNak b + j) % 9) "" ∧
        sumOfPeriods j (dashaStartOfNak b) ≤ e ∧
        e < sumOfPeriods (j + 1) (dashaStartOfNak b) ∧
        remaining = sumOfPeriods (j + 1) (dashaStartOfNak b) - e ∧
        ∀ j2, j2 < 9 → sumOfPeriods j2 (dashaStartOfNak b) ≤ e →
          e < sumOfPeriods (j2 + 1) (dashaStartOfNak b) → j2 = j) ∧
      0 ≤ remaining ∧ remaining ≤ (periodOf planet : ℚ) := by
  obtain ⟨j, hj9, hle, hlt, heq, huniq, hper⟩ := dashaLoop_spec_main b hb e h0 h1
  refine ⟨_, _, heq, ⟨j, hj9, rfl, hle, hlt, rfl, huniq⟩, by linarith, ?_⟩
  have hcast : (periodOf (dasha_sequence.getD ((dashaStartOfNak b + j) % 9) "") : ℚ) =
      dashaPeriodQ (dashaStartOfNak b + j) := rfl
  rw [hcast]
  exact hper

/-- Witness for C2: a birth in Ashwini (index 0) with 3 elapsed years is in
the Ketu period with 4 years remaining (the step `j = 0`). -/
theorem calculate_current_dasha_active_witness :
    (0 : ℕ) < 27 ∧ (0 : ℚ) ≤ 3 ∧ (3 : ℚ) < 120 ∧
    (∃ planet remaining, calculate_current_dasha 0 3 = some (planet, remaining) ∧
      (∃ j, j < 9 ∧
        planet = dasha_sequence.getD ((dashaStartOfNak 0 + j) % 9) "" ∧
        sumOfPeriods j (dashaStartOfNak 0) ≤ 3 ∧
        (3 : ℚ) < sumOfPeriods (j + 1) (dashaStartOfNak 0) ∧
        remaining = sumOfPeriods (j + 1) (dashaStartOfNak 0) - 3 ∧
        ∀ j2, j2 < 9 → sumOfPeriods j2 (dashaStartOfNak 0) ≤ 3 →
          (3 : ℚ) < sumOfPeriods (j2 + 1) (dashaStartOfNak 0) → j2 = j) ∧
      (0 : ℚ) ≤ remaining ∧ remaining ≤ (periodOf planet : ℚ)) :=
  ⟨by norm_num, by norm_num, by norm_num,
   calculate_current_dasha_active 0 (by norm_num) 3 (by norm_num) (by norm_num)⟩

/-- Counterexample to **C6** as stated: at the birth instant itself
(`elapsed_years = 0`, a birth input the sequencer accepts) the code returns
`remaining_years = 7`, which equals — and is not strictly less than — the
period length of the active planet Ketu. -/
theorem dasha_remaining_at_boundary :
    calculate_current_dasha 0 0 = some ("Ketu", 7) ∧
    ¬ ((7 : ℚ) < (periodOf "Ketu" : ℚ)) := by
  constructor
  · rw [calculate_current_dasha_eq 0 (by norm_num)]
    have hst : dashaStartOfNak 0 = 0 := rfl
    rw [hst, dashaLoop_succ]
    have e0 : dashaPeriodQ 0 = ((7 : ℕ) : ℚ) := rfl
    rw [e0]
    rw [if_pos (by push_cast; norm_num : (0 : ℚ) < 0 + ((7 : ℕ) : ℚ))]
    have hnm : dasha_sequence.getD (0 % 9) "" = "Ketu" := rfl
    rw [hnm]
    norm_num
  · have hk : periodOf "Ketu" = 7 := rfl
    rw [hk]
    push_cast
    norm_num

/-- **C6 (amended).** For every accepted birth input with elapsed years in
`[0, 120)`, the returned remaining duration is strictly positive and at most
(not strictly below) the period length of the active planet. -/
theorem dasha_remaining_in_period (b : ℕ) (hb : b < 27) (e : ℚ)
    (h0 : 0 ≤ e) (h1 : e < 120) :
    ∃ planet remaining, calculate_current_dasha b e = some (planet, remaining) ∧
      0 < remaining ∧ remaining ≤ (periodOf planet : ℚ) := by
  obtain ⟨j, hj9, hle, hlt, heq, huniq, hper⟩ := dashaLoop_spec_main b hb e h0 h1
  refine ⟨_, _, heq, by linarith, ?_⟩
  have hcast : (periodOf (dasha_sequence.getD ((dashaStartOfNak b + j) % 9) "") : ℚ) =
      dashaPeriodQ (dashaStartOfNak b + j) := rfl
  rw [hcast]
  exact hper

/-- Witness for the amended C6 at mansion 5 (Ardra, lord Rahu) and
elapsed 100 years. -/
theorem dasha_remaining_in_period_witness :
    (5 : ℕ) < 27 ∧ (0 : ℚ) ≤ 100 ∧ (100 : ℚ) < 120 ∧
    (∃ planet remaining, calculate_current_dasha 5 100 = some (planet, remaining) ∧
      0 < remaining ∧ remaining ≤ (periodOf planet : ℚ)) :=
  ⟨by norm_num, by norm_num, by norm_num,
   dasha_remaining_in_period 5 (by norm_num) 100 (by norm_num) (by norm_num)⟩

/-- **C10.** For every elapsed time of at least 120 years the nine-step walk
finishes without assigning `remaining_years`, so `calculate_current_dasha`
fails (Python: `UnboundLocalError` at the `return`, modelled `none`) instead
of wrapping or clamping. -/
theorem dasha_overflow_none (b : ℕ) (hb : b < 27) (e : ℚ) (h : 120 ≤ e) :
    calculate_current_dasha b e = none := by
  rw [calculate_current_dasha_eq b hb]
  apply dashaLoop_none
  rw [sumOfPeriods_nine]
  linarith

/-- Witness for C10: 130 elapsed years from Ashwini yields the error. -/
theorem dasha_overflow_none_witness :
    (0 : ℕ) < 27 ∧ (120 : ℚ) ≤ 130 ∧ calculate_current_dasha 0 130 = none :=
  ⟨by norm_num, by norm_num, dasha_overflow_none 0 (by norm_num) 130 (by norm_num)⟩

theorem pymod_eq_self {a b : ℚ} (hb : 0 < b) (h0 : 0 ≤ a) (h1 : a < b) :
    pymod a b = a := by
  have hfl : ⌊a / b⌋ = 0 := by
    rw [Int.floor_eq_iff]
    constructor
    · push_cast
      exact div_nonneg h0 hb.le
    · push_cast
      rw [zero_add, div_lt_one hb]
      exact h1
  unfold pymod
  rw [hfl]
  push_cast
  ring

/-- **C5.** `calculate_ayanamsa` equals exactly 23.85 at 1900-01-01 and is
strictly increasing in the calendar date (lexicographic order on
year/month/day, for any dates with month in `[1,12]` and day in `[1,31]`),
across month and year boundaries included. -/
theorem calculate_ayanamsa_spec :
    calculate_ayanamsa 1900 1 1 = 23.85 ∧
    ∀ y1 m1 d1 y2 m2 d2 : ℕ,
      1 ≤ m1 → m1 ≤ 12 → 1 ≤ d1 → d1 ≤ 31 →
      1 ≤ m2 → m2 ≤ 12 → 1 ≤ d2 → d2 ≤ 31 →
      (y1 < y2 ∨ (y1 = y2 ∧ m1 < m2) ∨ (y1 = y2 ∧ m1 = m2 ∧ d1 < d2)) →
      calculate_ayanamsa y1 m1 d1 < calculate_ayanamsa y2 m2 d2 := by
  constructor
  · simp only [calculate_ayanamsa]
    push_cast
    norm_num
  · intro y1 m1 d1 y2 m2 d2 hm1l hm1u hd1l hd1u hm2l hm2u hd2l hd2u hlex
    simp only [calculate_ayanamsa]
    have hc : (0 : ℚ) < 0.013888889 := by norm_num
    have hm1q : (m1 : ℚ) ≤ 12 := by exact_mod_cast hm1u
    have hm2q : (1 : ℚ) ≤ (m2 : ℚ) := by exact_mod_cast hm2l
    have hd1q : (d1 : ℚ) ≤ 31 := by exact_mod_cast hd1u
    have hd2q : (1 : ℚ) ≤ (d2 : ℚ) := by exact_mod_cast hd2l
    have hf : ((y1 : ℚ) + ((m1 : ℚ) - 1) / 12 + ((d1 : ℚ) - 1) / 365.25)
        < ((y2 : ℚ) + ((m2 : ℚ) - 1) / 12 + ((d2 : ℚ) - 1) / 365.25) := by
      rcases hlex with hy | ⟨hy, hm⟩ | ⟨hy, hm, hd⟩
      · have hyq : (y1 : ℚ) + 1 ≤ (y2 : ℚ) := by exact_mod_cast hy
        norm_num
        linarith
      · subst hy
        have hmq : (m1 : ℚ) + 1 ≤ (m2 : ℚ) := by exact_mod_cast hm
        norm_num
        linarith
      · subst hy
        subst hm
        have hdq : (d1 : ℚ) + 1 ≤ (d2 : ℚ) := by exact_mod_cast hd
        norm_num
        linarith
    have h2 : (((y1 : ℚ) + ((m1 : ℚ) - 1) / 12 + ((d1 : ℚ) - 1) / 365.25) - 1900)
          * 0.013888889
        < (((y2 : ℚ) + ((m2 : ℚ) - 1) / 12 + ((d2 : ℚ) - 1) / 365.25) - 1900)
          * 0.013888889 :=
      mul_lt_mul_of_pos_right (by linarith) hc
    linarith

/-- Witness for C5: the exact value at the epoch, and strictness across the
1999-12-31 → 2000-01-01 year boundary. -/
theorem calculate_ayanamsa_spec_witness :
    calculate_ayanamsa 1900 1 1 = 23.85 ∧
    calculate_ayanamsa 1999 12 31 < calculate_ayanamsa 2000 1 1 :=
  ⟨calculate_ayanamsa_spec.1,
   calculate_ayanamsa_spec.2 1999 12 31 2000 1 1 (by norm_num) (by norm_num)
     (by norm_num) (by norm_num) (by norm_num) (by norm_num) (by norm_num)
     (by norm_num) (Or.inl (by norm_num))⟩

/-- **C8.** The static 27-entry mansion-lord sequence repeats with period 9
(`sequence[i] = sequence[i+9] = sequence[i+18]` for `i < 9`) and the nine
ruling-period year lengths sum to exactly 120. -/
theorem static_tables_spec :
    nakshatra_lords.length = 27 ∧
    (∀ i, i < 9 → nakshatra_lords.getD i "" = nakshatra_lords.getD (i + 9) "" ∧
      nakshatra_lords.getD i "" = nakshatra_lords.getD (i + 18) "") ∧
    (DASHA_PERIODS.map Prod.snd).sum = 120 := by decide

/-- Witness for C8 (the periodicity conjunct has an embedded bound):
instantiated at `i = 3`. -/
theorem static_tables_spec_witness :
    3 < 9 ∧ (nakshatra_lords.getD 3 "" = nakshatra_lords.getD (3 + 9) "" ∧
      nakshatra_lords.getD 3 "" = nakshatra_lords.getD (3 + 18) "") :=
  ⟨by norm_num, static_tables_spec.2.1 3 (by norm_num)⟩

/-- **C9.** `get_coordinates` looks the lowercased place name up in the city
table; an unknown name silently resolves to the Delhi default
`(28.7041, 77.1025)` (no error path exists — the function is total), and a
known name returns its table entry. -/
theorem get_coordinates_spec (city : String) :
    (city_coords.lookup (pyLower city) = none →
      get_coordinates city = (28.7041, 77.1025)) ∧
    (∀ c, city_coords.lookup (pyLower city) = some c →
      get_coordinates city = c) := by
  constructor
  · intro h
    unfold get_coordinates
    rw [h]
    rfl
  · intro c h
    unfold get_coordinates
    rw [h]
    rfl

/-- Witness for C9: "Atlantis" is not in the table and falls back to the
Delhi default. -/
theorem get_coordinates_spec_witness :
    city_coords.lookup (pyLower "Atlantis") = none ∧
    get_coordinates "Atlantis" = (28.7041, 77.1025) :=
  ⟨by decide, (get_coordinates_spec "Atlantis").1 (by decide)⟩

/-- Counterexample to **C4** as stated: `get_nakshatra` performs no
normalization into `[0, 360)`.  At longitude 365 the index is
`⌊365 / (360/27)⌋ = 27` — the quotient 27.375 is far from an integer, so
the program's double-precision floor division also yields 27 (unlike the
boundary input 360, where the rounding of `360/27` above `40/3` makes the
floats land on 26) — out of range for the 27-entry table, and the lookup
`NAKSHATRAS[27]` raises `IndexError` (modelled `none`).  The claimed
normalized result would have been longitude 5, mansion index 0. -/
theorem get_nakshatra_at_365 : get_nakshatra 365 = none := by
  have hfl : ⌊(365 : ℚ) / (360 / 27)⌋ = 27 := by
    rw [Int.floor_eq_iff]
    constructor
    · push_cast
      norm_num
    · push_cast
      norm_num
  simp only [get_nakshatra]
  rw [hfl]
  rfl

/-- **C4 (amended).** `get_nakshatra` does not normalize its input; on the
domain `[0, 360)` (the only longitudes the program feeds it) it returns
mansion index `⌊x / (360/27)⌋ ∈ [0, 26]` and pada
`⌊(x mod (360/27)) / ((360/27)/4)⌋ + 1 ∈ [1, 4]`; out-of-range inputs such
as 365 instead fail with an `IndexError`. -/
theorem get_nakshatra_in_range (x : ℚ) (h0 : 0 ≤ x) (h1 : x < 360) :
    ∃ nm idx pada, get_nakshatra x = some (nm, idx, pada) ∧
      idx = ⌊x / (360 / 27)⌋ ∧ 0 ≤ idx ∧ idx ≤ 26 ∧
      pada = ⌊(pymod x (360 / 27)) / (360 / 27 / 4)⌋ + 1 ∧
      1 ≤ pada ∧ pada ≤ 4 := by
  have hspan : (0 : ℚ) < 360 / 27 := by norm_num
  have hidx0 : 0 ≤ ⌊x / (360 / 27)⌋ := Int.floor_nonneg.2 (div_nonneg h0 hspan.le)
  have hidx1 : ⌊x / (360 / 27)⌋ ≤ 26 := by
    have hq : x / (360 / 27) < 27 := by
      rw [div_lt_iff₀ hspan]
      norm_num
      linarith
    have h27 := Int.floor_lt.2 (show x / (360 / 27) < ((27 : ℤ) : ℚ) by exact_mod_cast hq)
    omega
  have hP0 : 0 ≤ pymod x (360 / 27) := pymod_nonneg x hspan
  have hP1 : pymod x (360 / 27) < 360 / 27 := pymod_lt x hspan
  have hspan4 : (0 : ℚ) < 360 / 27 / 4 := by norm_num
  have hpada0 : 0 ≤ ⌊(pymod x (360 / 27)) / (360 / 27 / 4)⌋ :=
    Int.floor_nonneg.2 (div_nonneg hP0 hspan4.le)
  have hpada1 : ⌊(pymod x (360 / 27)) / (360 / 27 / 4)⌋ ≤ 3 := by
    have hq : (pymod x (360 / 27)) / (360 / 27 / 4) < 4 := by
      rw [div_lt_iff₀ hspan4]
      norm_num
      linarith
    have h4 := Int.floor_lt.2
      (show (pymod x (360 / 27)) / (360 / 27 / 4) < ((4 : ℤ) : ℚ) by exact_mod_cast hq)
    omega
  have hlen : (⌊x / (360 / 27)⌋).toNat < NAKSHATRAS.length := by
    have h27 : NAKSHATRAS.length = 27 := rfl
    rw [h27]
    omega
  obtain ⟨nm, hnm⟩ : ∃ nm, NAKSHATRAS.get? (⌊x / (360 / 27)⌋).toNat = some nm :=
    ⟨_, List.get?_eq_get hlen⟩
  refine ⟨nm, ⌊x / (360 / 27)⌋, ⌊(pymod x (360 / 27)) / (360 / 27 / 4)⌋ + 1,
    ?_, rfl, hidx0, hidx1, rfl, by omega, by omega⟩
  simp only [get_nakshatra, pyListGet]
  rw [if_pos hidx0, hnm]
  rfl

/-- Witness for the amended C4 at longitude 100 (inside Uttara Phalguni). -/
theorem get_nakshatra_in_range_witness :
    (0 : ℚ) ≤ 100 ∧ (100 : ℚ) < 360 ∧
    (∃ nm idx pada, get_nakshatra 100 = some (nm, idx, pada) ∧
      idx = ⌊(100 : ℚ) / (360 / 27)⌋ ∧ 0 ≤ idx ∧ idx ≤ 26 ∧
      pada = ⌊(pymod 100 (360 / 27)) / (360 / 27 / 4)⌋ + 1 ∧
      1 ≤ pada ∧ pada ≤ 4) :=
  ⟨by norm_num, by norm_num,
   get_nakshatra_in_range 100 (by norm_num) (by norm_num)⟩

/-- The Moon line of `calculate_planetary_positions` under a stub ephemeris:
the raw ecliptic longitude (already converted to degrees) has the ayanamsa
for the birth date subtracted and is passed to `get_sign_and_degree`
(`planets['Moon'] = self.get_sign_and_degree(... - ayanamsa)`). -/
def buildMoonPosition (raw_longitude_deg : ℚ) (year month day : ℕ) : SignDegree :=
  get_sign_and_degree (raw_longitude_deg - calculate_ayanamsa year month day)

theorem moon_1990_facts :
    25.100 < calculate_ayanamsa 1990 1 15 ∧
    calculate_ayanamsa 1990 1 15 < 25.101 ∧
    (buildMoonPosition 45 1990 1 15).degree = 45 - calculate_ayanamsa 1990 1 15 ∧
    (buildMoonPosition 45 1990 1 15).sign_num = 0 ∧
    (buildMoonPosition 45 1990 1 15).sign = "Aries" := by
  have ha_lo : (25.100 : ℚ) < calculate_ayanamsa 1990 1 15 := by
    simp only [calculate_ayanamsa]
    push_cast
    norm_num
  have ha_hi : calculate_ayanamsa 1990 1 15 < (25.101 : ℚ) := by
    simp only [calculate_ayanamsa]
    push_cast
    norm_num
  set a := calculate_ayanamsa 1990 1 15 with ha_def
  have h360 : pymod (45 - a) 360 = 45 - a :=
    pymod_eq_self (by norm_num) (by linarith) (by linarith)
  have h30 : pymod (45 - a) 30 = 45 - a :=
    pymod_eq_self (by norm_num) (by linarith) (by linarith)
  have hfl : ⌊(45 - a) / 30⌋ = 0 := by
    rw [Int.floor_eq_iff]
    constructor
    · push_cast
      exact div_nonneg (by linarith) (by norm_num)
    · push_cast
      rw [zero_add, div_lt_one (by norm_num : (0 : ℚ) < 30)]
      linarith
  have hsn : (buildMoonPosition 45 1990 1 15).sign_num = ⌊pymod (45 - a) 360 / 30⌋ := rfl
  have hdeg : (buildMoonPosition 45 1990 1 15).degree =
      pymod (pymod (45 - a) 360) 30 := rfl
  have hsign : (buildMoonPosition 45 1990 1 15).sign =
      (pyListGet SIGNS ⌊pymod (45 - a) 360 / 30⌋).getD "" := rfl
  refine ⟨ha_lo, ha_hi, ?_, ?_, ?_⟩
  · rw [hdeg, h360, h30]
  · rw [hsn, h360, hfl]
  · rw [hsign, h360, hfl]
    rfl

/-- Counterexample to **C7** as stated: the claimed values
`ayanamsa ≈ 25.08` and `degree ≈ 19.92` are off — both differ from the
computed values by more than 0.02 (the true values are ≈ 25.1005 and
≈ 19.8995). -/
theorem moon_1990_claimed_values_off :
    (0.02 : ℚ) < calculate_ayanamsa 1990 1 15 - 25.08 ∧
    (0.02 : ℚ) < 19.92 - (buildMoonPosition 45 1990 1 15).degree := by
  obtain ⟨h1, h2, h3, _, _⟩ := moon_1990_facts
  constructor
  · linarith
  · rw [h3]
    linarith

/-- **C7 (amended).** For birth date 1990-01-15 the ayanamsa is ≈ 25.10
(strictly between 25.100 and 25.101, not ≈ 25.08), and with a stub ephemeris
giving the Moon a raw ecliptic longitude of 45° the chart builder yields
sign index 0 (Aries) with degree `45 − ayanamsa` ≈ 19.90 (strictly between
19.899 and 19.900, not ≈ 19.92). -/
theorem moon_1990_position :
    25.100 < calculate_ayanamsa 1990 1 15 ∧
    calculate_ayanamsa 1990 1 15 < 25.101 ∧
    (buildMoonPosition 45 1990 1 15).sign_num = 0 ∧
    (buildMoonPosition 45 1990 1 15).sign = "Aries" ∧
    (buildMoonPosition 45 1990 1 15).degree = 45 - calculate_ayanamsa 1990 1 15 ∧
    19.899 < (buildMoonPosition 45 1990 1 15).degree ∧
    (buildMoonPosition 45 1990 1 15).degree < 19.900 := by
  obtain ⟨h1, h2, h3, h4, h5⟩ := moon_1990_facts
  refine ⟨h1, h2, h4, h5, h3, ?_, ?_⟩
  · rw [h3]
    linarith
  · rw [h3]
    linarith
